import Mathlib

/-!
Shallow embedding of the storefront application (`src/app.py`): the relational
store (users, products, product images, orders, order items), the session cart,
and the request handlers that the specification's claims are about
(cart add/remove, cart view, checkout, registration, admin stock/price update,
admin product creation, admin listing toggle, and the cart-count context
processor).  Prices are modelled as rationals, stocks and quantities as
integers (SQLite INTEGER / Python int), and fallible form input as `Option`.
-/

set_option autoImplicit false

namespace StoreApp

/-- A flash notice: success or error, with the message shown to the user. -/
inductive Notice where
  | success : String → Notice
  | error : String → Notice
deriving DecidableEq, Repr

/-- Row of the `users` table. -/
structure User where
  id : Nat
  username : String
  password_hash : String
deriving DecidableEq, Repr

/-- Row of the `products` table. -/
structure Product where
  id : Nat
  name : String
  category : String
  description : Option String
  price : ℚ
  stock : Int
  image_url : Option String
  color : Option String
  size : Option String
  listed : Bool
deriving DecidableEq, Repr

/-- Row of the `product_images` table. -/
structure ProductImage where
  id : Nat
  product_id : Nat
  image_url : String
deriving DecidableEq, Repr

/-- Row of the `orders` table. -/
structure Order where
  id : Nat
  customer_name : String
  customer_address : String
  stripe_payment_id : String
  total : ℚ
  paid : Bool
  created_at : String
deriving DecidableEq, Repr

/-- Row of the `order_items` table. -/
structure OrderItem where
  id : Nat
  order_id : Nat
  product_id : Nat
  quantity : Int
  price : ℚ
deriving DecidableEq, Repr

/-- The relational store (`store.db`). -/
structure Store where
  users : List User
  products : List Product
  product_images : List ProductImage
  orders : List Order
  order_items : List OrderItem
deriving DecidableEq, Repr

/-- The store with all tables empty. -/
def emptyStore : Store := ⟨[], [], [], [], []⟩

/-- `lastrowid` of the next `INSERT`: one more than the largest id in use. -/
def nextId (ids : List Nat) : Nat := ids.foldr max 0 + 1

/-- The session cart: Python dict from `str(product_id)` to an integer
quantity, abstracted as an association list keyed by the product id. -/
abbrev Cart := List (Nat × Int)

/-- Dictionary lookup on the session cart (`cart_items.get(str(pid))`). -/
def alookup : Cart → Nat → Option Int
  | [], _ => none
  | (k, v) :: rest, key => if k = key then some v else alookup rest key

/-- Dictionary assignment `cart_items[str(pid)] = v`: replaces the entry for
the key if present, otherwise appends it. -/
def setCart : Cart → Nat → Int → Cart
  | [], k, v => [(k, v)]
  | (k', v') :: rest, k, v =>
      if k' = k then (k, v) :: rest else (k', v') :: setCart rest k v

/-- Python truthiness test `not s` for an optional form string: `None` and
the empty string are falsy. -/
def isBlank : Option String → Bool
  | none => true
  | some s => s.isEmpty

/-- `add_to_cart` (`src/app.py` lines 241-252): the quantity parsed from the
form (`none` when absent or unparseable) is defaulted to 1, coerced up to at
least 1, and accumulated onto the current quantity for that product. -/
def add_to_cart (cart : Cart) (product_id : Nat) (rawQty : Option Int) : Cart :=
  let requested_qty := rawQty.getD 1
  let current_qty := (alookup cart product_id).getD 0
  setCart cart product_id (current_qty + max requested_qty 1)

/-- `remove_from_cart` (`src/app.py` lines 255-260): `cart_items.pop(str(pid),
None)` deletes the entry when present; absence is not an error. -/
def remove_from_cart (cart : Cart) (product_id : Nat) : Cart :=
  cart.filter (fun kv => decide (kv.1 ≠ product_id))

/-- Cart-view shipping (`src/app.py` line 230):
`0 if subtotal >= 100 else 12.50 if subtotal > 0 else 0`. -/
def cartShipping (subtotal : ℚ) : ℚ :=
  if 100 ≤ subtotal then 0 else if 0 < subtotal then 25 / 2 else 0

/-- Checkout shipping (`src/app.py` line 292):
`0 if subtotal >= 100 else 12.50`. -/
def checkoutShipping (subtotal : ℚ) : ℚ :=
  if 100 ≤ subtotal then 0 else 25 / 2

/-- Cart-view grand total (`src/app.py` line 231): subtotal plus shipping. -/
def cartTotal (subtotal : ℚ) : ℚ := subtotal + cartShipping subtotal

/-- Checkout total (`src/app.py` line 293): subtotal plus shipping. -/
def checkoutTotal (subtotal : ℚ) : ℚ := subtotal + checkoutShipping subtotal

/-- Resolution of the cart against the `products` table
(`SELECT * FROM products WHERE id IN (...)` followed by the per-row lookup of
the cart quantity): the rows, in table order, paired with their quantities. -/
def resolvedLines (products : List Product) (cart : Cart) : List (Product × Int) :=
  products.filterMap (fun p => (alookup cart p.id).map (fun q => (p, q)))

/-- Subtotal accumulation over resolved lines
(`subtotal += row["price"] * quantity`). -/
def linesSubtotal (lines : List (Product × Int)) : ℚ :=
  lines.foldl (fun acc l => acc + l.1.price * (l.2 : ℚ)) 0

/-- `UPDATE products SET stock = MAX(stock - ?, 0) WHERE id = ?`
(`src/app.py` line 315). -/
def updateStockDec (ps : List Product) (pid : Nat) (q : Int) : List Product :=
  ps.map (fun p => if p.id = pid then { p with stock := max (p.stock - q) 0 } else p)

/-- The checkout loop's sequence of stock decrements, applied in order. -/
def applyStockDecs (ps : List Product) (decs : List (Nat × Int)) : List Product :=
  decs.foldl (fun acc d => updateStockDec acc d.1 d.2) ps

/-- What `checkout` hands back: the mutated store, the session cart after the
request, the flash notice, and the redirect target. -/
structure CheckoutResult where
  store : Store
  cart : Cart
  notice : Notice
  redirect : String
deriving DecidableEq, Repr

/-- `checkout` (`src/app.py` lines 263-323).  Rejects an empty cart, then
missing/empty customer name, address or payment reference; otherwise resolves
the cart against the products table, computes subtotal/shipping/total, inserts
one order row (paid unconditionally), one order-item row per resolved line at
the captured price, applies the stock decrements, clears the cart and reports
success. -/
def checkout (s : Store) (cart : Cart)
    (customer_name customer_address payment_ref : Option String)
    (now : String) : CheckoutResult :=
  if cart = [] then
    ⟨s, cart, .error "Votre panier est vide.", "cart"⟩
  else if (isBlank customer_name || isBlank customer_address || isBlank payment_ref) = true then
    ⟨s, cart, .error "Merci de compléter toutes les informations de paiement.", "cart"⟩
  else
    let lines := resolvedLines s.products cart
    let subtotal := linesSubtotal lines
    let total := checkoutTotal subtotal
    let order_id := nextId (s.orders.map Order.id)
    let newOrder : Order :=
      ⟨order_id, customer_name.getD "", customer_address.getD "", payment_ref.getD "",
        total, true, now⟩
    let baseItemId := nextId (s.order_items.map OrderItem.id)
    let newItems : List OrderItem :=
      lines.enum.map (fun il => ⟨baseItemId + il.1, order_id, il.2.1.id, il.2.2, il.2.1.price⟩)
    let products2 := applyStockDecs s.products (lines.map (fun l => (l.1.id, l.2)))
    ⟨⟨s.users, products2, s.product_images, s.orders ++ [newOrder], s.order_items ++ newItems⟩,
      [], .success "Paiement validé. Merci pour votre commande !", "index"⟩

/-- Modelled from the spec: werkzeug's `generate_password_hash`, an external
salted one-way hash; only its storage and equality behaviour matter here, so
it is modelled as an injective tagging of the password. -/
def generate_password_hash (password : String) : String :=
  "pbkdf2:" ++ password

/-- `register` (POST branch, `src/app.py` lines 326-347).  Rejects a blank
username or password; a duplicate username violates the `UNIQUE` constraint
(`sqlite3.IntegrityError`) and is surfaced as a notice with no row written;
otherwise the user row is inserted with the hashed password. -/
def register (s : Store) (username password : Option String) : Store × Notice :=
  if (isBlank username || isBlank password) = true then
    (s, .error "Merci de remplir tous les champs.")
  else if s.users.any (fun u => decide (u.username = username.getD "")) then
    (s, .error "Ce nom d\x27utilisateur existe déjà.")
  else
    ({ s with
        users := s.users ++
          [⟨nextId (s.users.map User.id), username.getD "",
            generate_password_hash (password.getD "")⟩] },
      .success "Compte créé. Vous pouvez vous connecter.")

/-- The upload extension allow-list (`src/app.py` line 15). -/
def ALLOWED_EXTENSIONS : List String := ["png", "jpg", "jpeg", "webp"]

/-- `allowed_file` (`src/app.py` lines 131-132): the filename contains a dot
and its extension (lowercased text after the last dot) is allow-listed. -/
def allowed_file (filename : String) : Bool :=
  filename.contains '.' &&
    ALLOWED_EXTENSIONS.contains ((filename.splitOn ".").getLastD "").toLower

/-- `admin_add_product` (`src/app.py` lines 436-484).  Requires name,
category, price and stock (Python truthiness on the raw form strings); inserts
the product row with the caller-supplied stock and price, unlisted; keeps the
first four uploaded images that pass `allowed_file`, records each as a
`product_images` row under a uniquely-suffixed path, and makes the first
accepted image the product's primary `image_url`. -/
def admin_add_product (s : Store) (name category color size description : Option String)
    (price : Option ℚ) (stockInput : Option Int)
    (images : List String) (now : String) : Store × Notice :=
  if (isBlank name || isBlank category || price.isNone || stockInput.isNone) = true then
    (s, .error "Merci de remplir les champs obligatoires.")
  else
    let product_id := nextId (s.products.map Product.id)
    let accepted := (images.take 4).filter (fun f => !f.isEmpty && allowed_file f)
    let saved_images := accepted.map
      (fun f => "uploads/" ++ toString product_id ++ "_" ++ now ++ "_" ++ f)
    let baseImgId := nextId (s.product_images.map ProductImage.id)
    let newImageRows := saved_images.enum.map
      (fun ip => ProductImage.mk (baseImgId + ip.1) product_id ip.2)
    let newProduct : Product :=
      ⟨product_id, name.getD "", category.getD "", description, price.getD 0,
        stockInput.getD 0, saved_images.head?, color, size, false⟩
    ({ s with
        products := s.products ++ [newProduct]
        product_images := s.product_images ++ newImageRows },
      .success "Article ajouté.")

/-- `admin_update_stock` (`src/app.py` lines 487-500): unconditional overwrite
of the product's stock and price with the caller-supplied values. -/
def admin_update_stock (s : Store) (product_id : Nat)
    (stockInput : Int) (priceInput : ℚ) : Store × Notice :=
  ({ s with
      products := s.products.map (fun p =>
        if p.id = product_id then
          { p with
              stock := stockInput
              price := priceInput }
        else p) },
    .success "Stock et prix mis à jour.")

/-- `admin_toggle_listing` (`src/app.py` lines 503-516): fetches the row, and
only when found flips its listed flag; the success notice is flashed
regardless. -/
def admin_toggle_listing (s : Store) (product_id : Nat) : Store × Notice :=
  match s.products.find? (fun p => decide (p.id = product_id)) with
  | some current =>
      let new_state := !current.listed
      ({ s with
          products := s.products.map (fun p =>
            if p.id = product_id then { p with listed := new_state } else p) },
        .success "Statut de mise en vente mis à jour.")
  | none => (s, .success "Statut de mise en vente mis à jour.")

/-- A Python value held in the session cart dict: `add_to_cart` stores plain
integers, while the cart-count context processor expects subscriptable
dictionaries. -/
inductive PyVal where
  | vInt : Int → PyVal
  | vDict : List (String × Int) → PyVal
deriving DecidableEq, Repr

/-- String-keyed lookup in a Python dict value. -/
def dictLookup : List (String × Int) → String → Option Int
  | [], _ => none
  | (k, v) :: rest, key => if k = key then some v else dictLookup rest key

/-- Python subscription `item[key]`: defined on dicts with the key present;
subscripting an integer raises `TypeError`, modelled as `none`. -/
def pySubscript : PyVal → String → Option Int
  | .vInt _, _ => none
  | .vDict entries, key => dictLookup entries key

/-- The session representation of the cart exactly as `add_to_cart` stores it:
each quantity is a plain integer value under the stringified product id. -/
def storedCart (cart : Cart) : List (String × PyVal) :=
  cart.map (fun kv => (toString kv.1, PyVal.vInt kv.2))

/-- `inject_cart` (`src/app.py` lines 135-138): computes
`sum(item["quantity"] for item in cart.values())`; any failing subscription
(TypeError) makes the whole computation fail. -/
def inject_cart_count (sessionCart : List (String × PyVal)) : Option Int :=
  (sessionCart.mapM (fun kv => pySubscript kv.2 "quantity")).map
    (fun qs => qs.foldl (fun acc q => acc + q) 0)

/-- A session-cart operation: an add (with the raw parsed quantity, `none`
when absent or unparseable) or a removal. -/
inductive CartOp where
  | add : Nat → Option Int → CartOp
  | remove : Nat → CartOp

/-- One cart request handler applied to the session cart. -/
def applyCartOp (cart : Cart) : CartOp → Cart
  | .add pid raw => add_to_cart cart pid raw
  | .remove pid => remove_from_cart cart pid

/-- A sequence of cart request handlers applied to the empty session cart. -/
def applyCartOps (ops : List CartOp) : Cart :=
  ops.foldl applyCartOp []

/-- The net effect of the checkout decrement loop on one product's stock. -/
def decStock (decs : List (Nat × Int)) (pid : Nat) (st : Int) : Int :=
  decs.foldl (fun acc d => if pid = d.1 then max (acc - d.2) 0 else acc) st

/-- A two-product store (the spec's worked example: product 1 priced 60 with
stock 5, product 2 priced 50 with stock 2), used to instantiate theorems. -/
def wStore : Store :=
  ⟨[], [⟨1, "A", "cat", none, 60, 5, none, none, none, true⟩,
        ⟨2, "B", "cat", none, 50, 2, none, none, none, true⟩], [], [], []⟩

/-- A reachable store for the stock-invariant counterexample: the admin
creates a product with stock 5 (and price 10). -/
def c1Store : Store :=
  (admin_add_product emptyStore (some "Tee") (some "vetements") none none none
    (some 10) (some 5) [] "t0").1

/-! ### Basic lemmas about the session cart dictionary -/

theorem mem_of_alookup_eq_some {cart : Cart} {pid : Nat} {q : Int}
    (h : alookup cart pid = some q) : (pid, q) ∈ cart := by
  induction cart with
  | nil => simp [alookup] at h
  | cons kv rest ih =>
    obtain ⟨k, v⟩ := kv
    by_cases hk : k = pid
    · subst hk
      simp [alookup] at h
      simp [h]
    · simp [alookup, hk] at h
      exact List.mem_cons_of_mem _ (ih h)

theorem alookup_eq_some_of_mem {cart : Cart}
    (hnd : (cart.map Prod.fst).Nodup) {pid : Nat} {q : Int}
    (h : (pid, q) ∈ cart) : alookup cart pid = some q := by
  induction cart with
  | nil => simp at h
  | cons kv rest ih =>
    obtain ⟨k, v⟩ := kv
    simp only [List.map_cons, List.nodup_cons] at hnd
    rcases List.mem_cons.mp h with h1 | h1
    · obtain ⟨hk, hv⟩ := Prod.mk.injEq .. ▸ h1
      simp [alookup, hk.symm, hv]
    · have hk : k ≠ pid := by
        intro he
        exact hnd.1 (he ▸ (List.mem_map.mpr ⟨(pid, q), h1, rfl⟩))
      simp [alookup, hk]
      exact ih hnd.2 h1

theorem alookup_eq_none_of_not_mem {cart : Cart} {pid : Nat}
    (h : pid ∉ cart.map Prod.fst) : alookup cart pid = none := by
  induction cart with
  | nil => rfl
  | cons kv rest ih =>
    obtain ⟨k, v⟩ := kv
    simp only [List.map_cons, List.mem_cons] at h
    push_neg at h
    simp [alookup, Ne.symm h.1, ih h.2]

theorem mem_setCart {cart : Cart} {k : Nat} {v : Int} {kv : Nat × Int}
    (h : kv ∈ setCart cart k v) : kv = (k, v) ∨ kv ∈ cart := by
  induction cart with
  | nil => simp [setCart] at h; simp [h]
  | cons kv' rest ih =>
    obtain ⟨k', v'⟩ := kv'
    by_cases hk : k' = k
    · subst hk
      simp [setCart] at h
      rcases h with h | h
      · left; simp [h]
      · right; exact List.mem_cons_of_mem _ h
    · simp [setCart, hk] at h
      rcases h with h | h
      · right; simp [h]
      · rcases ih h with h1 | h1
        · left; exact h1
        · right; exact List.mem_cons_of_mem _ h1

theorem alookup_setCart_self (cart : Cart) (k : Nat) (v : Int) :
    alookup (setCart cart k v) k = some v := by
  induction cart with
  | nil => simp [setCart, alookup]
  | cons kv rest ih =>
    obtain ⟨k', v'⟩ := kv
    by_cases hk : k' = k
    · subst hk; simp [setCart, alookup]
    · simp [setCart, alookup, hk, ih]

theorem alookup_remove_self (cart : Cart) (pid : Nat) :
    alookup (remove_from_cart cart pid) pid = none := by
  apply alookup_eq_none_of_not_mem
  intro h
  rcases List.mem_map.mp h with ⟨kv, hkv, hfst⟩
  rcases List.mem_filter.mp hkv with ⟨_, hne⟩
  exact (of_decide_eq_true hne) hfst

/-! ### Claim theorems: shipping (C4) and checkout input validation (C5) -/

/-- Claim C4: in the cart view, shipping is 0 when the subtotal is at least
100, 12.50 when the subtotal is strictly between 0 and 100, and 0 when the
subtotal is 0; in checkout, shipping is 0 when the subtotal is at least 100
and 12.50 otherwise (including a zero subtotal); in both places the total
equals the subtotal plus the shipping. -/
theorem C4_shipping_rule (s : ℚ) :
    (100 ≤ s → cartShipping s = 0 ∧ checkoutShipping s = 0) ∧
    (0 < s → s < 100 → cartShipping s = 25 / 2) ∧
    (s = 0 → cartShipping s = 0) ∧
    (¬ 100 ≤ s → checkoutShipping s = 25 / 2) ∧
    cartTotal s = s + cartShipping s ∧
    checkoutTotal s = s + checkoutShipping s := by
  refine ⟨fun h => ?_, fun h0 h100 => ?_, fun h0 => ?_, fun h => ?_, rfl, rfl⟩
  · simp [cartShipping, checkoutShipping, h]
  · have : ¬ 100 ≤ s := not_le.mpr h100
    simp [cartShipping, this, h0]
  · simp [cartShipping, h0]
  · simp [checkoutShipping, h]

/-- Witness for C4 at the spec's own example subtotals 100, 99.99 and 0. -/
theorem C4_shipping_rule_witness :
    (cartShipping 100 = 0 ∧ checkoutShipping 100 = 0) ∧
    cartShipping (9999 / 100) = 25 / 2 ∧
    cartShipping 0 = 0 ∧
    checkoutShipping 0 = 25 / 2 :=
  ⟨(C4_shipping_rule 100).1 (by norm_num),
   (C4_shipping_rule (9999 / 100)).2.1 (by norm_num) (by norm_num),
   (C4_shipping_rule 0).2.2.1 rfl,
   (C4_shipping_rule 0).2.2.2.1 (by norm_num)⟩

/-- Claim C5: a checkout with an empty cart, or with any of customer name,
customer address or payment reference empty or missing, writes nothing to the
store, leaves the cart unchanged, and surfaces an error notice with a redirect
to the cart page. -/
theorem C5_checkout_rejects (s : Store) (cart : Cart)
    (customer_name customer_address payment_ref : Option String) (now : String)
    (h : cart = [] ∨ isBlank customer_name = true ∨ isBlank customer_address = true ∨
      isBlank payment_ref = true) :
    (checkout s cart customer_name customer_address payment_ref now).store = s ∧
    (checkout s cart customer_name customer_address payment_ref now).cart = cart ∧
    (∃ msg, (checkout s cart customer_name customer_address payment_ref now).notice =
      .error msg) ∧
    (checkout s cart customer_name customer_address payment_ref now).redirect = "cart" := by
  by_cases hc : cart = []
  · simp [checkout, hc]
  · rcases h with h | h
    · exact absurd h hc
    · have hb : (isBlank customer_name || isBlank customer_address || isBlank payment_ref)
          = true := by
        rcases h with h | h | h <;> simp [h]
      simp [checkout, hc, hb]

/-- Witness for C5: an empty cart and a missing name are both rejected with no
state change. -/
theorem C5_checkout_rejects_witness :
    (checkout emptyStore [] (some "N") (some "A") (some "P") "t").store = emptyStore ∧
    (checkout emptyStore [] (some "N") (some "A") (some "P") "t").cart = [] ∧
    (∃ msg, (checkout emptyStore [] (some "N") (some "A") (some "P") "t").notice =
      .error msg) ∧
    (checkout emptyStore [] (some "N") (some "A") (some "P") "t").redirect = "cart" :=
  C5_checkout_rejects emptyStore [] (some "N") (some "A") (some "P") "t" (Or.inl rfl)

/-! ### The checkout stock-decrement loop as a pointwise map -/

theorem map_eq_self_of {α : Type} {l : List α} {f : α → α}
    (h : ∀ a ∈ l, f a = a) : l.map f = l := by
  induction l with
  | nil => rfl
  | cons a t ih =>
    simp only [List.map_cons, h a (List.mem_cons_self a t)]
    rw [ih (fun x hx => h x (List.mem_cons_of_mem a hx))]

theorem decStock_cons (d : Nat × Int) (ds : List (Nat × Int)) (pid : Nat) (st : Int) :
    decStock (d :: ds) pid st =
      decStock ds pid (if pid = d.1 then max (st - d.2) 0 else st) := rfl

theorem applyStockDecs_eq_map (decs : List (Nat × Int)) (ps : List Product) :
    applyStockDecs ps decs =
      ps.map (fun p => { p with stock := decStock decs p.id p.stock }) := by
  induction decs generalizing ps with
  | nil =>
    exact (map_eq_self_of (fun p _ => rfl)).symm
  | cons d ds ih =>
    have h1 : applyStockDecs ps (d :: ds) = applyStockDecs (updateStockDec ps d.1 d.2) ds := rfl
    rw [h1, ih, updateStockDec, List.map_map]
    apply List.map_congr_left
    intro p _
    by_cases hpid : p.id = d.1
    · simp only [Function.comp_apply, if_pos hpid]
      rw [decStock_cons, if_pos hpid]
    · simp only [Function.comp_apply, if_neg hpid]
      rw [decStock_cons, if_neg hpid]

theorem decStock_eq_of_not_mem {decs : List (Nat × Int)} {pid : Nat}
    (h : pid ∉ decs.map Prod.fst) (st : Int) : decStock decs pid st = st := by
  induction decs generalizing st with
  | nil => rfl
  | cons d ds ih =>
    simp only [List.map_cons, List.mem_cons] at h
    push_neg at h
    rw [decStock_cons, if_neg h.1]
    exact ih h.2 st

theorem decStock_eq_of_mem {decs : List (Nat × Int)}
    (hnd : (decs.map Prod.fst).Nodup) {pid : Nat} {q : Int}
    (h : (pid, q) ∈ decs) (st : Int) : decStock decs pid st = max (st - q) 0 := by
  induction decs generalizing st with
  | nil => simp at h
  | cons d ds ih =>
    simp only [List.map_cons, List.nodup_cons] at hnd
    rcases List.mem_cons.mp h with h1 | h1
    · have hd1 : pid = d.1 := by rw [← h1]
      have hd2 : d.2 = q := by rw [← h1]
      rw [decStock_cons, if_pos hd1, hd2]
      apply decStock_eq_of_not_mem
      intro hc
      exact hnd.1 (hd1 ▸ hc)
    · have hd1 : pid ≠ d.1 := by
        intro he
        exact hnd.1 (he ▸ List.mem_map.mpr ⟨(pid, q), h1, rfl⟩)
      rw [decStock_cons, if_neg hd1]
      exact ih hnd.2 h1 st

theorem decStock_nonneg (decs : List (Nat × Int)) (pid : Nat) {st : Int}
    (h : 0 ≤ st) : 0 ≤ decStock decs pid st := by
  induction decs generalizing st with
  | nil => exact h
  | cons d ds ih =>
    rw [decStock_cons]
    apply ih
    by_cases hd : pid = d.1
    · rw [if_pos hd]; exact le_max_right _ _
    · rw [if_neg hd]; exact h

/-! ### Resolution of the cart against the products table -/

theorem alookup_isSome_iff (cart : Cart) (pid : Nat) :
    (alookup cart pid).isSome = true ↔ pid ∈ cart.map Prod.fst := by
  induction cart with
  | nil => simp [alookup]
  | cons kv rest ih =>
    obtain ⟨k, v⟩ := kv
    by_cases hk : k = pid
    · subst hk; simp [alookup]
    · simp [alookup, hk, ih, Ne.symm hk]

theorem mem_resolvedLines {ps : List Product} {cart : Cart} {p : Product} {q : Int} :
    (p, q) ∈ resolvedLines ps cart ↔ p ∈ ps ∧ alookup cart p.id = some q := by
  simp only [resolvedLines, List.mem_filterMap]
  constructor
  · rintro ⟨a, ha, hfa⟩
    rcases Option.map_eq_some'.mp hfa with ⟨qa, hqa, heq⟩
    cases heq
    exact ⟨ha, hqa⟩
  · rintro ⟨hp, hq⟩
    exact ⟨p, hp, by rw [hq]; rfl⟩

theorem resolvedLines_map_fst (ps : List Product) (cart : Cart) :
    (resolvedLines ps cart).map Prod.fst =
      ps.filter (fun p => (alookup cart p.id).isSome) := by
  induction ps with
  | nil => rfl
  | cons p rest ih =>
    cases halk : alookup cart p.id with
    | none =>
      simp only [resolvedLines, List.filterMap_cons, halk, Option.map_none', List.filter_cons,
        Option.isSome_none, Bool.false_eq_true, if_neg, reduceIte] at ih ⊢
      exact ih
    | some q =>
      simp only [resolvedLines, List.filterMap_cons, halk, Option.map_some', List.filter_cons,
        Option.isSome_some, if_pos, List.map_cons, reduceIte] at ih ⊢
      rw [ih]

theorem resolvedLines_ids_nodup {ps : List Product} (cart : Cart)
    (hids : (ps.map Product.id).Nodup) :
    ((resolvedLines ps cart).map (fun l => l.1.id)).Nodup := by
  have h1 : (resolvedLines ps cart).map (fun l => l.1.id)
      = ((resolvedLines ps cart).map Prod.fst).map Product.id := by
    rw [List.map_map]; rfl
  rw [h1, resolvedLines_map_fst]
  have hsub : List.Sublist ((ps.filter (fun p => (alookup cart p.id).isSome)).map Product.id)
      (ps.map Product.id) := (List.filter_sublist ps).map Product.id
  exact hids.sublist hsub

theorem filter_ids_comm (ps : List Product) (cart : Cart) :
    (ps.filter (fun p => (alookup cart p.id).isSome)).map Product.id =
      (ps.map Product.id).filter (fun i => (alookup cart i).isSome) := by
  induction ps with
  | nil => rfl
  | cons p rest ih =>
    cases halk : alookup cart p.id with
    | none => simp [List.filter_cons, halk, ih]
    | some q => simp [List.filter_cons, halk, ih]

theorem resolvedLines_length {ps : List Product} {cart : Cart}
    (hids : (ps.map Product.id).Nodup) (hkeys : (cart.map Prod.fst).Nodup)
    (hres : ∀ kv ∈ cart, ∃ p ∈ ps, p.id = kv.1) :
    (resolvedLines ps cart).length = cart.length := by
  have h1 : (resolvedLines ps cart).length
      = ((resolvedLines ps cart).map Prod.fst).length := (List.length_map _ _).symm
  rw [h1, resolvedLines_map_fst]
  have h2 : (ps.filter (fun p => (alookup cart p.id).isSome)).length
      = (((ps.filter (fun p => (alookup cart p.id).isSome)).map Product.id)).length :=
    (List.length_map _ _).symm
  rw [h2, filter_ids_comm]
  have hnd1 : ((ps.map Product.id).filter (fun i => (alookup cart i).isSome)).Nodup :=
    hids.filter _
  have hnd2 : (cart.map Prod.fst).Nodup := hkeys
  have hmem : ∀ a, a ∈ (ps.map Product.id).filter (fun i => (alookup cart i).isSome) ↔
      a ∈ cart.map Prod.fst := by
    intro a
    rw [List.mem_filter]
    constructor
    · rintro ⟨_, h2'⟩
      exact (alookup_isSome_iff cart a).mp h2'
    · intro hmemk
      refine ⟨?_, (alookup_isSome_iff cart a).mpr hmemk⟩
      rcases List.mem_map.mp hmemk with ⟨kv, hkv, hfst⟩
      rcases hres kv hkv with ⟨p, hpmem, hpid⟩
      exact List.mem_map.mpr ⟨p, hpmem, by rw [hpid, hfst]⟩
  have hperm := (List.perm_ext_iff_of_nodup hnd1 hnd2).mpr hmem
  rw [hperm.length_eq, List.length_map]

/-! ### The successful checkout, characterised -/

theorem checkout_success_eq (s : Store) (cart : Cart)
    (customer_name customer_address payment_ref : Option String) (now : String)
    (hne : cart ≠ []) (hn : isBlank customer_name = false)
    (ha : isBlank customer_address = false) (hp : isBlank payment_ref = false) :
    checkout s cart customer_name customer_address payment_ref now =
      ⟨⟨s.users,
        applyStockDecs s.products ((resolvedLines s.products cart).map (fun l => (l.1.id, l.2))),
        s.product_images,
        s.orders ++ [⟨nextId (s.orders.map Order.id), customer_name.getD "",
          customer_address.getD "", payment_ref.getD "",
          checkoutTotal (linesSubtotal (resolvedLines s.products cart)), true, now⟩],
        s.order_items ++ (resolvedLines s.products cart).enum.map (fun il =>
          ⟨nextId (s.order_items.map OrderItem.id) + il.1, nextId (s.orders.map Order.id),
            il.2.1.id, il.2.2, il.2.1.price⟩)⟩,
       [], .success "Paiement validé. Merci pour votre commande !", "index"⟩ := by
  simp [checkout, hne, hn, ha, hp]

theorem checkout_core (s : Store) (cart : Cart)
    (customer_name customer_address payment_ref : Option String) (now : String)
    (hids : (s.products.map Product.id).Nodup)
    (hne : cart ≠ []) (hn : isBlank customer_name = false)
    (ha : isBlank customer_address = false) (hp : isBlank payment_ref = false) :
    ∃ o : Order, ∃ newItems : List OrderItem,
      (checkout s cart customer_name customer_address payment_ref now).store.orders =
        s.orders ++ [o] ∧
      o.paid = true ∧
      o.total = checkoutTotal (linesSubtotal (resolvedLines s.products cart)) ∧
      (checkout s cart customer_name customer_address payment_ref now).store.order_items =
        s.order_items ++ newItems ∧
      newItems.length = (resolvedLines s.products cart).length ∧
      (∀ p ∈ s.products, ∀ q : Int, alookup cart p.id = some q →
        (∃ it ∈ newItems, it.order_id = o.id ∧ it.product_id = p.id ∧
          it.quantity = q ∧ it.price = p.price) ∧
        (p, q) ∈ resolvedLines s.products cart ∧
        { p with stock := max (p.stock - q) 0 } ∈
          (checkout s cart customer_name customer_address payment_ref now).store.products) ∧
      (∀ p ∈ s.products, alookup cart p.id = none →
        p ∈ (checkout s cart customer_name customer_address payment_ref now).store.products) ∧
      (checkout s cart customer_name customer_address payment_ref now).store.products.length =
        s.products.length ∧
      (checkout s cart customer_name customer_address payment_ref now).cart = [] ∧
      (checkout s cart customer_name customer_address payment_ref now).notice =
        .success "Paiement validé. Merci pour votre commande !" := by
  rw [checkout_success_eq s cart customer_name customer_address payment_ref now hne hn ha hp]
  refine ⟨_, _, rfl, rfl, rfl, rfl, ?_, ?_, ?_, ?_, rfl, rfl⟩
  · rw [List.length_map, List.enum_length]
  · intro p hpmem q halk
    have hline : (p, q) ∈ resolvedLines s.products cart := mem_resolvedLines.mpr ⟨hpmem, halk⟩
    have hdnd : (((resolvedLines s.products cart).map (fun l => (l.1.id, l.2))).map
        Prod.fst).Nodup := by
      rw [List.map_map]
      exact resolvedLines_ids_nodup cart hids
    have hmemdec : (p.id, q) ∈ (resolvedLines s.products cart).map (fun l => (l.1.id, l.2)) :=
      List.mem_map.mpr ⟨(p, q), hline, rfl⟩
    refine ⟨?_, hline, ?_⟩
    · have henum : (p, q) ∈ (resolvedLines s.products cart).enum.map Prod.snd := by
        rw [List.enum_map_snd]
        exact hline
      rcases List.mem_map.mp henum with ⟨x, hx, hxsnd⟩
      refine ⟨⟨nextId (s.order_items.map OrderItem.id) + x.1,
        nextId (s.orders.map Order.id), x.2.1.id, x.2.2, x.2.1.price⟩,
        List.mem_map.mpr ⟨x, hx, rfl⟩, rfl, ?_, ?_, ?_⟩ <;> rw [hxsnd]
    · rw [applyStockDecs_eq_map]
      refine List.mem_map.mpr ⟨p, hpmem, ?_⟩
      rw [decStock_eq_of_mem hdnd hmemdec]
  · intro p hpmem halk
    rw [applyStockDecs_eq_map]
    refine List.mem_map.mpr ⟨p, hpmem, ?_⟩
    have hnotmem : p.id ∉ ((resolvedLines s.products cart).map
        (fun l => (l.1.id, l.2))).map Prod.fst := by
      rw [List.map_map]
      intro hc
      rcases List.mem_map.mp hc with ⟨l, hl, hlid⟩
      obtain ⟨l1, l2⟩ := l
      have := (mem_resolvedLines.mp hl).2
      rw [show l1.id = p.id from hlid] at this
      rw [halk] at this
      exact Option.noConfusion this
    rw [decStock_eq_of_not_mem hnotmem]
  · rw [applyStockDecs_eq_map, List.length_map]

/-! ### Claim C8: cart quantities stay positive -/

theorem applyCartOp_positive {cart : Cart} (h : ∀ kv ∈ cart, 0 < kv.2)
    (op : CartOp) : ∀ kv ∈ applyCartOp cart op, 0 < kv.2 := by
  intro kv hkv
  cases op with
  | add pid raw =>
    simp only [applyCartOp, add_to_cart] at hkv
    rcases mem_setCart hkv with h1 | h1
    · subst h1
      have hcur : 0 ≤ (alookup cart pid).getD 0 := by
        cases halk : alookup cart pid with
        | none => simp
        | some q =>
          have := h _ (mem_of_alookup_eq_some halk)
          simpa using le_of_lt this
      have hmax : (1 : Int) ≤ max (raw.getD 1) 1 := le_max_right _ _
      simp only []
      omega
    · exact h _ h1
  | remove pid =>
    simp only [applyCartOp, remove_from_cart] at hkv
    exact h _ (List.mem_of_mem_filter hkv)

theorem applyCartOps_positive_from (ops : List CartOp) (cart : Cart)
    (h : ∀ kv ∈ cart, 0 < kv.2) :
    ∀ kv ∈ ops.foldl applyCartOp cart, 0 < kv.2 := by
  induction ops generalizing cart with
  | nil => exact h
  | cons op rest ih => exact ih _ (applyCartOp_positive h op)

/-- Claim C8: starting from the empty cart, after any sequence of add/remove
operations every quantity held in the cart is positive; an add with invalid
(`none`) or non-positive parsed input adds exactly 1 to the current quantity,
an add accumulates onto any existing quantity, and a removal deletes the
entry (absence is not an error: the removal is total and leaves no entry). -/
theorem C8_cart_quantities_positive (ops : List CartOp) :
    (∀ kv ∈ applyCartOps ops, 0 < kv.2) ∧
    (∀ (cart : Cart) (pid : Nat) (raw : Option Int),
      (raw = none ∨ raw.getD 1 ≤ 0) →
      alookup (add_to_cart cart pid raw) pid = some ((alookup cart pid).getD 0 + 1)) ∧
    (∀ (cart : Cart) (pid : Nat) (q : Int), alookup cart pid = some q →
      ∀ raw : Option Int,
        alookup (add_to_cart cart pid raw) pid = some (q + max (raw.getD 1) 1)) ∧
    (∀ (cart : Cart) (pid : Nat), alookup (remove_from_cart cart pid) pid = none) := by
  refine ⟨applyCartOps_positive_from ops [] (by simp), ?_, ?_, ?_⟩
  · intro cart pid raw hraw
    have hone : max (raw.getD 1) 1 = 1 := by
      rcases hraw with h | h
      · subst h; simp
      · exact max_eq_right (h.trans zero_le_one)
    simp [add_to_cart, hone, alookup_setCart_self]
  · intro cart pid q hq raw
    simp [add_to_cart, hq, alookup_setCart_self]
  · intro cart pid
    exact alookup_remove_self cart pid

/-- Witness for C8: a short concrete operation sequence, an accumulating add
with a negative quantity, and a removal. -/
theorem C8_cart_quantities_positive_witness :
    (∀ kv ∈ applyCartOps
      [CartOp.add 1 (some 2), CartOp.add 1 (some (-5)), CartOp.add 2 none, CartOp.remove 2],
      0 < kv.2) ∧
    alookup (add_to_cart [(1, 2)] 1 (some (-5))) 1 = some 3 ∧
    alookup (remove_from_cart [(1, 2)] 1) 1 = none := by
  refine ⟨(C8_cart_quantities_positive _).1, ?_,
    (C8_cart_quantities_positive []).2.2.2 [(1, 2)] 1⟩
  have h := (C8_cart_quantities_positive []).2.2.1 [(1, 2)] 1 2 (by decide) (some (-5))
  simpa using h

/-! ### Claim C9: duplicate registration -/

/-- Claim C9: when some user already owns the username, a second registration
with that username (and a non-empty password) fails with the
username-already-exists notice and leaves the user table — in particular the
first account and its password hash — unchanged. -/
theorem C9_duplicate_username (s : Store) (uname pw : String)
    (hu : uname ≠ "") (hpw : pw ≠ "")
    (hexists : ∃ u ∈ s.users, u.username = uname) :
    (register s (some uname) (some pw)).1 = s ∧
    (register s (some uname) (some pw)).2 = .error "Ce nom d\x27utilisateur existe déjà." := by
  obtain ⟨u, hu_mem, hu_name⟩ := hexists
  have h1 : isBlank (some uname) = false := by
    have hne : ¬ uname.isEmpty = true := fun hc => hu ((String.isEmpty_iff uname).mp hc)
    simpa [isBlank] using hne
  have h2 : isBlank (some pw) = false := by
    have hne : ¬ pw.isEmpty = true := fun hc => hpw ((String.isEmpty_iff pw).mp hc)
    simpa [isBlank] using hne
  have hex : ∃ x ∈ s.users, x.username = uname := ⟨u, hu_mem, hu_name⟩
  constructor <;> simp [register, h1, h2, hex]

/-- Witness for C9 on a one-user store. -/
theorem C9_duplicate_username_witness :
    (register ⟨[⟨1, "alice", "pbkdf2:pw1"⟩], [], [], [], []⟩ (some "alice") (some "pw2")).1 =
      ⟨[⟨1, "alice", "pbkdf2:pw1"⟩], [], [], [], []⟩ ∧
    (register ⟨[⟨1, "alice", "pbkdf2:pw1"⟩], [], [], [], []⟩ (some "alice") (some "pw2")).2 =
      .error "Ce nom d\x27utilisateur existe déjà." :=
  C9_duplicate_username ⟨[⟨1, "alice", "pbkdf2:pw1"⟩], [], [], [], []⟩ "alice" "pw2"
    (by decide) (by decide) ⟨⟨1, "alice", "pbkdf2:pw1"⟩, by simp, rfl⟩

/-! ### Claim C10: toggling the listing twice is the identity -/

theorem find_toggleMap (ps : List Product) (pid : Nat) (b : Bool) :
    (ps.map (fun p => if p.id = pid then { p with listed := b } else p)).find?
        (fun p => decide (p.id = pid)) =
      (ps.find? (fun p => decide (p.id = pid))).map (fun p => { p with listed := b }) := by
  induction ps with
  | nil => rfl
  | cons p rest ih =>
    by_cases hp : p.id = pid
    · simp [List.find?_cons, hp]
    · simp [List.find?_cons, hp, ih]

/-- Claim C10: with the product ids unique (they are a primary key), toggling
a product's listing twice returns the product table to its state before the
first toggle; for a nonexistent id the toggle is a no-op; and in every case the
generic success notice is reported. -/
theorem C10_toggle_twice (s : Store) (pid : Nat)
    (hids : (s.products.map Product.id).Nodup) :
    (admin_toggle_listing (admin_toggle_listing s pid).1 pid).1 = s ∧
    (admin_toggle_listing s pid).2 = .success "Statut de mise en vente mis à jour." ∧
    ((∀ p ∈ s.products, p.id ≠ pid) → (admin_toggle_listing s pid).1 = s) := by
  refine ⟨?_, ?_, ?_⟩
  · cases hf : s.products.find? (fun p => decide (p.id = pid)) with
    | none =>
      simp [admin_toggle_listing, hf]
    | some p0 =>
      have hp0mem : p0 ∈ s.products := List.mem_of_find?_eq_some hf
      have hid0 : p0.id = pid := by
        have h := List.find?_some hf
        simpa using h
      have hfind2 := find_toggleMap s.products pid (!p0.listed)
      rw [hf] at hfind2
      simp only [admin_toggle_listing, hf, Option.map_some'] at hfind2 ⊢
      rw [hfind2]
      simp only [Bool.not_not, List.map_map]
      have hmap : s.products.map
          ((fun p => if p.id = pid then { p with listed := p0.listed } else p) ∘
            (fun p => if p.id = pid then { p with listed := !p0.listed } else p)) =
          s.products := by
        apply map_eq_self_of
        intro p hp
        by_cases hpideq : p.id = pid
        · have hpp0 : p = p0 := by
            apply List.inj_on_of_nodup_map hids hp hp0mem
            rw [hpideq, hid0]
          have hl : p0.listed = p.listed := by rw [hpp0]
          simp only [Function.comp_apply]
          rw [if_pos hpideq]
          rw [if_pos (show (({ p with listed := !p0.listed }) : Product).id = pid from hpideq)]
          rw [hl]
        · simp [Function.comp, hpideq]
      rw [hmap]
  · cases hf : s.products.find? (fun p => decide (p.id = pid)) <;>
      simp [admin_toggle_listing, hf]
  · intro hnone
    have hf : s.products.find? (fun p => decide (p.id = pid)) = none :=
      List.find?_eq_none.mpr (fun p hp => by simpa using hnone p hp)
    simp [admin_toggle_listing, hf]

/-- Witness for C10 on a two-product store, toggling product 1. -/
theorem C10_toggle_twice_witness :
    (admin_toggle_listing
      (admin_toggle_listing
        ⟨[], [⟨1, "A", "c", none, 60, 5, none, none, none, true⟩,
              ⟨2, "B", "c", none, 50, 2, none, none, none, false⟩], [], [], []⟩ 1).1 1).1 =
      ⟨[], [⟨1, "A", "c", none, 60, 5, none, none, none, true⟩,
            ⟨2, "B", "c", none, 50, 2, none, none, none, false⟩], [], [], []⟩ ∧
    (admin_toggle_listing
      ⟨[], [⟨1, "A", "c", none, 60, 5, none, none, none, true⟩,
            ⟨2, "B", "c", none, 50, 2, none, none, none, false⟩], [], [], []⟩ 1).2 =
      .success "Statut de mise en vente mis à jour." :=
  ⟨(C10_toggle_twice _ 1 (by decide)).1, (C10_toggle_twice _ 1 (by decide)).2.1⟩

/-! ### Claim C2: the successful checkout -/

/-- Claim C2: a checkout with a non-empty cart in which every cart product id
resolves to an existing product row and with non-empty customer name, address
and payment reference inserts exactly one new order row, exactly one
order-item row per cart line — at the product's current price and the cart
quantity — and replaces each referenced product's stock with
max(stock − quantity, 0); the cart is cleared and success is reported.
Product ids and cart keys are unique (primary key / dict keys). -/
theorem C2_checkout_success (s : Store) (cart : Cart)
    (customer_name customer_address payment_ref : Option String) (now : String)
    (hids : (s.products.map Product.id).Nodup)
    (hkeys : (cart.map Prod.fst).Nodup)
    (hne : cart ≠ [])
    (hres : ∀ kv ∈ cart, ∃ p ∈ s.products, p.id = kv.1)
    (hn : isBlank customer_name = false) (ha : isBlank customer_address = false)
    (hp : isBlank payment_ref = false) :
    ∃ o : Order, ∃ newItems : List OrderItem,
      (checkout s cart customer_name customer_address payment_ref now).store.orders =
        s.orders ++ [o] ∧
      (checkout s cart customer_name customer_address payment_ref now).store.order_items =
        s.order_items ++ newItems ∧
      newItems.length = cart.length ∧
      (∀ kv ∈ cart, ∀ p ∈ s.products, p.id = kv.1 →
        (∃ it ∈ newItems, it.order_id = o.id ∧ it.product_id = kv.1 ∧
          it.quantity = kv.2 ∧ it.price = p.price) ∧
        { p with stock := max (p.stock - kv.2) 0 } ∈
          (checkout s cart customer_name customer_address payment_ref now).store.products) ∧
      (checkout s cart customer_name customer_address payment_ref now).store.products.length =
        s.products.length ∧
      (checkout s cart customer_name customer_address payment_ref now).cart = [] ∧
      (checkout s cart customer_name customer_address payment_ref now).notice =
        .success "Paiement validé. Merci pour votre commande !" := by
  obtain ⟨o, newItems, horders, hpaid, htotal, hitems, hlen, hper, hunt, hplen, hcart, hnotice⟩ :=
    checkout_core s cart customer_name customer_address payment_ref now hids hne hn ha hp
  refine ⟨o, newItems, horders, hitems, ?_, ?_, hplen, hcart, hnotice⟩
  · rw [hlen]
    exact resolvedLines_length hids hkeys hres
  · intro kv hkv p hpmem hpid
    obtain ⟨pid, q⟩ := kv
    have halk : alookup cart p.id = some q := by
      rw [hpid]
      exact alookup_eq_some_of_mem hkeys hkv
    obtain ⟨⟨it, hit, hoid, hpidit, hq, hprc⟩, _, hstock⟩ := hper p hpmem q halk
    exact ⟨⟨it, hit, hoid, by rw [hpidit, hpid], hq, hprc⟩, hstock⟩

/-- Witness for C2 on the spec's worked example: products priced 60 (stock 5)
and 50 (stock 2), cart one of each. -/
theorem C2_checkout_success_witness :
    ∃ o : Order, ∃ newItems : List OrderItem,
      (checkout wStore [(1, 1), (2, 1)] (some "N") (some "A") (some "pay") "t").store.orders =
        wStore.orders ++ [o] ∧
      (checkout wStore [(1, 1), (2, 1)] (some "N") (some "A") (some "pay") "t").store.order_items =
        wStore.order_items ++ newItems ∧
      newItems.length = ([(1, 1), (2, 1)] : Cart).length ∧
      (∀ kv ∈ ([(1, 1), (2, 1)] : Cart), ∀ p ∈ wStore.products, p.id = kv.1 →
        (∃ it ∈ newItems, it.order_id = o.id ∧ it.product_id = kv.1 ∧
          it.quantity = kv.2 ∧ it.price = p.price) ∧
        { p with stock := max (p.stock - kv.2) 0 } ∈
          (checkout wStore [(1, 1), (2, 1)] (some "N") (some "A") (some "pay") "t").store.products) ∧
      (checkout wStore [(1, 1), (2, 1)] (some "N") (some "A") (some "pay") "t").store.products.length =
        wStore.products.length ∧
      (checkout wStore [(1, 1), (2, 1)] (some "N") (some "A") (some "pay") "t").cart = [] ∧
      (checkout wStore [(1, 1), (2, 1)] (some "N") (some "A") (some "pay") "t").notice =
        .success "Paiement validé. Merci pour votre commande !" :=
  C2_checkout_success wStore [(1, 1), (2, 1)] (some "N") (some "A") (some "pay") "t"
    (by decide) (by decide) (by decide) (by decide) rfl rfl rfl

/-! ### Claim C6: checkout whose cart resolves to nothing -/

/-- Claim C6: a checkout with a non-empty cart and all three fields present,
none of whose product ids exists in the products table, still creates exactly
one order — with no order-item rows, total 12.50 (subtotal 0 plus checkout
shipping 12.50), and the paid flag set — leaves the products table untouched,
and clears the cart. -/
theorem C6_checkout_all_unresolvable (s : Store) (cart : Cart)
    (customer_name customer_address payment_ref : Option String) (now : String)
    (hne : cart ≠ [])
    (hn : isBlank customer_name = false) (ha : isBlank customer_address = false)
    (hp : isBlank payment_ref = false)
    (hnores : ∀ kv ∈ cart, ∀ p ∈ s.products, p.id ≠ kv.1) :
    ∃ o : Order,
      (checkout s cart customer_name customer_address payment_ref now).store.orders =
        s.orders ++ [o] ∧
      o.total = 25 / 2 ∧
      o.paid = true ∧
      (checkout s cart customer_name customer_address payment_ref now).store.order_items =
        s.order_items ∧
      (checkout s cart customer_name customer_address payment_ref now).store.products =
        s.products ∧
      (checkout s cart customer_name customer_address payment_ref now).cart = [] ∧
      (checkout s cart customer_name customer_address payment_ref now).notice =
        .success "Paiement validé. Merci pour votre commande !" := by
  have hlines : resolvedLines s.products cart = [] := by
    rw [resolvedLines, List.filterMap_eq_nil_iff]
    intro p hp'
    rw [Option.map_eq_none']
    cases halk : alookup cart p.id with
    | none => rfl
    | some q =>
      exact absurd rfl (hnores (p.id, q) (mem_of_alookup_eq_some halk) p hp')
  rw [checkout_success_eq s cart customer_name customer_address payment_ref now hne hn ha hp,
    hlines]
  refine ⟨_, rfl, ?_, rfl, by simp, rfl, rfl, rfl⟩
  show checkoutTotal (linesSubtotal []) = 25 / 2
  norm_num [checkoutTotal, checkoutShipping, linesSubtotal]

/-- Witness for C6: a cart holding only the nonexistent product id 9. -/
theorem C6_checkout_all_unresolvable_witness :
    ∃ o : Order,
      (checkout wStore [(9, 3)] (some "N") (some "A") (some "pay") "t").store.orders =
        wStore.orders ++ [o] ∧
      o.total = 25 / 2 ∧
      o.paid = true ∧
      (checkout wStore [(9, 3)] (some "N") (some "A") (some "pay") "t").store.order_items =
        wStore.order_items ∧
      (checkout wStore [(9, 3)] (some "N") (some "A") (some "pay") "t").store.products =
        wStore.products ∧
      (checkout wStore [(9, 3)] (some "N") (some "A") (some "pay") "t").cart = [] ∧
      (checkout wStore [(9, 3)] (some "N") (some "A") (some "pay") "t").notice =
        .success "Paiement validé. Merci pour votre commande !" :=
  C6_checkout_all_unresolvable wStore [(9, 3)] (some "N") (some "A") (some "pay") "t"
    (by decide) rfl rfl rfl (by decide)

/-! ### Claim C7: a cart line exceeding the available stock -/

/-- Claim C7: a checkout whose cart line requests more than the product's
current stock still succeeds: the order-item row records the full requested
quantity at the current price, the line is resolved (so it is charged in full
inside the order total), the product's stock is set to 0, and the success
notice is reported — the quantity is not capped and no error is surfaced. -/
theorem C7_checkout_oversell (s : Store) (cart : Cart)
    (customer_name customer_address payment_ref : Option String) (now : String)
    (hids : (s.products.map Product.id).Nodup)
    (hkeys : (cart.map Prod.fst).Nodup)
    (hne : cart ≠ [])
    (hn : isBlank customer_name = false) (ha : isBlank customer_address = false)
    (hp : isBlank payment_ref = false)
    (pid : Nat) (q : Int) (hline : (pid, q) ∈ cart)
    (prod : Product) (hprod : prod ∈ s.products) (hpid : prod.id = pid)
    (hover : prod.stock < q) :
    (checkout s cart customer_name customer_address payment_ref now).notice =
      .success "Paiement validé. Merci pour votre commande !" ∧
    (∃ o : Order, ∃ newItems : List OrderItem,
      (checkout s cart customer_name customer_address payment_ref now).store.orders =
        s.orders ++ [o] ∧
      o.total = checkoutTotal (linesSubtotal (resolvedLines s.products cart)) ∧
      (checkout s cart customer_name customer_address payment_ref now).store.order_items =
        s.order_items ++ newItems ∧
      (∃ it ∈ newItems, it.order_id = o.id ∧ it.product_id = pid ∧
        it.quantity = q ∧ it.price = prod.price)) ∧
    (prod, q) ∈ resolvedLines s.products cart ∧
    { prod with stock := 0 } ∈
      (checkout s cart customer_name customer_address payment_ref now).store.products := by
  obtain ⟨o, newItems, horders, hpaid, htotal, hitems, hlen, hper, hunt, hplen, hcart, hnotice⟩ :=
    checkout_core s cart customer_name customer_address payment_ref now hids hne hn ha hp
  have halk : alookup cart prod.id = some q := by
    rw [hpid]
    exact alookup_eq_some_of_mem hkeys hline
  obtain ⟨⟨it, hit, hoid, hpidit, hq, hprc⟩, hlinemem, hstock⟩ := hper prod hprod q halk
  have hmax : max (prod.stock - q) 0 = 0 := max_eq_right (sub_nonpos.mpr hover.le)
  rw [hmax] at hstock
  exact ⟨hnotice,
    ⟨o, newItems, horders, htotal, hitems, ⟨it, hit, hoid, by rw [hpidit, hpid], hq, hprc⟩⟩,
    hlinemem, hstock⟩

/-- Witness for C7: product 2 has stock 2 and the cart requests 5 of it. -/
theorem C7_checkout_oversell_witness :
    (checkout wStore [(2, 5)] (some "N") (some "A") (some "pay") "t").notice =
      .success "Paiement validé. Merci pour votre commande !" ∧
    (∃ o : Order, ∃ newItems : List OrderItem,
      (checkout wStore [(2, 5)] (some "N") (some "A") (some "pay") "t").store.orders =
        wStore.orders ++ [o] ∧
      o.total = checkoutTotal (linesSubtotal (resolvedLines wStore.products [(2, 5)])) ∧
      (checkout wStore [(2, 5)] (some "N") (some "A") (some "pay") "t").store.order_items =
        wStore.order_items ++ newItems ∧
      (∃ it ∈ newItems, it.order_id = o.id ∧ it.product_id = 2 ∧
        it.quantity = 5 ∧ it.price = (⟨2, "B", "cat", none, 50, 2, none, none, none,
          true⟩ : Product).price)) ∧
    ((⟨2, "B", "cat", none, 50, 2, none, none, none, true⟩ : Product), (5 : Int)) ∈
      resolvedLines wStore.products [(2, 5)] ∧
    { (⟨2, "B", "cat", none, 50, 2, none, none, none, true⟩ : Product) with stock := 0 } ∈
      (checkout wStore [(2, 5)] (some "N") (some "A") (some "pay") "t").store.products :=
  C7_checkout_oversell wStore [(2, 5)] (some "N") (some "A") (some "pay") "t"
    (by decide) (by decide) (by decide) rfl rfl rfl 2 5 (by decide)
    ⟨2, "B", "cat", none, 50, 2, none, none, none, true⟩ (by decide) rfl (by decide)

/-! ### Claim C1: the stock non-negativity invariant (corrected) -/

/-- Counterexample to claim C1 as stated: starting from the reachable store in
which the admin created product 1 with stock 5, the admin stock update with
the caller-supplied value -3 is stored as given, leaving a product whose
stored stock is negative. -/
theorem C1_counterexample :
    ∃ p ∈ (admin_update_stock c1Store 1 (-3) 10).1.products, p.stock < 0 := by
  decide

/-- Claim C1 as amended: the checkout stock write never stores a negative
stock — starting from non-negative stocks, every product's stock is still
non-negative after any checkout — while the admin stock update and product
creation store the caller-supplied value as given, so they preserve
non-negativity exactly when the supplied stock is non-negative. -/
theorem C1_amended_stock_nonnegative (s : Store)
    (hpos : ∀ p ∈ s.products, 0 ≤ p.stock) :
    (∀ (cart : Cart) (customer_name customer_address payment_ref : Option String)
        (now : String),
      ∀ p ∈ (checkout s cart customer_name customer_address payment_ref now).store.products,
        0 ≤ p.stock) ∧
    (∀ (pid : Nat) (stk : Int) (price : ℚ), 0 ≤ stk →
      ∀ p ∈ (admin_update_stock s pid stk price).1.products, 0 ≤ p.stock) ∧
    (∀ (name category color size description : Option String) (price : ℚ) (stk : Int)
        (images : List String) (now : String), 0 ≤ stk →
      ∀ p ∈ (admin_add_product s name category color size description (some price)
          (some stk) images now).1.products, 0 ≤ p.stock) := by
  refine ⟨?_, ?_, ?_⟩
  · intro cart customer_name customer_address payment_ref now
    by_cases hc : cart = []
    · intro p hp
      simp [checkout, hc] at hp
      exact hpos p hp
    · by_cases hb : (isBlank customer_name || isBlank customer_address ||
          isBlank payment_ref) = true
      · intro p hp
        simp only [checkout, if_neg hc, if_pos hb] at hp
        exact hpos p hp
      · have hn : isBlank customer_name = false := by
          cases h' : isBlank customer_name
          · rfl
          · exact absurd (by rw [h']; simp) hb
        have ha2 : isBlank customer_address = false := by
          cases h' : isBlank customer_address
          · rfl
          · exact absurd (by rw [h']; simp) hb
        have hp2 : isBlank payment_ref = false := by
          cases h' : isBlank payment_ref
          · rfl
          · exact absurd (by rw [h']; simp) hb
        rw [checkout_success_eq s cart customer_name customer_address payment_ref now hc
          hn ha2 hp2]
        intro p hp
        rw [applyStockDecs_eq_map] at hp
        rcases List.mem_map.mp hp with ⟨p0, hp0, rfl⟩
        exact decStock_nonneg _ _ (hpos p0 hp0)
  · intro pid stk price hstk p hp
    simp only [admin_update_stock] at hp
    rcases List.mem_map.mp hp with ⟨p0, hp0, rfl⟩
    by_cases hid : p0.id = pid
    · rw [if_pos hid]
      exact hstk
    · rw [if_neg hid]
      exact hpos p0 hp0
  · intro name category color size description price stk images now hstk p hp
    by_cases hg : (isBlank name || isBlank category || (some price).isNone ||
        (some stk).isNone) = true
    · simp only [admin_add_product, if_pos hg] at hp
      exact hpos p hp
    · simp only [admin_add_product, if_neg hg] at hp
      rcases List.mem_append.mp hp with h | h
      · exact hpos p h
      · have hpv : p = ⟨nextId (s.products.map Product.id), name.getD "", category.getD "",
            description, (some price).getD 0, (some stk).getD 0,
            (((images.take 4).filter (fun f => !f.isEmpty && allowed_file f)).map
              (fun f => "uploads/" ++ toString (nextId (s.products.map Product.id)) ++ "_" ++
                now ++ "_" ++ f)).head?, color, size, false⟩ := by
          simpa using h
        rw [hpv]
        exact hstk

/-- Witness for C1 as amended: after an overselling checkout against the
example store, the floored product row (product 2, stock 0) still carries a
non-negative stock. -/
theorem C1_amended_stock_nonnegative_witness :
    (0 : Int) ≤ Product.stock ⟨2, "B", "cat", none, 50, 0, none, none, none, true⟩ :=
  (C1_amended_stock_nonnegative wStore (by decide)).1 [(2, 5)] (some "N") (some "A")
    (some "pay") "t" ⟨2, "B", "cat", none, 50, 0, none, none, none, true⟩ (by decide)

/-! ### Claim C3: the cart-count context processor -/

/-- Claim C3 (a bug in the code): on the session cart exactly as `add_to_cart`
stores it, the cart-count computation subscripts a plain integer and therefore
fails (a `TypeError`) on a non-empty cart — here the cart after one add of
quantity 2, whose sum of quantities is 2 — while on the empty cart the sum is
well-defined and 0. -/
theorem C3_inject_cart_count_fails :
    inject_cart_count (storedCart (add_to_cart [] 1 (some 2))) = none ∧
    (add_to_cart [] 1 (some 2)).foldl (fun acc kv => acc + kv.2) 0 = 2 ∧
    inject_cart_count (storedCart []) = some 0 := by
  refine ⟨rfl, rfl, rfl⟩

end StoreApp
